import Mathlib

/-!
Shallow embedding of `src/Parsing_script.py` (a universal document parser).

Modelling conventions:

* The Python functions `parse_txt`, `parse_csv`, `parse_json`, `parse_xml`,
  `parse_pdf`, `parse_docx`, `parse_excel`, `parse_html` and the dispatcher
  `parse_document` are embedded under their source names.
* Python's `logging` calls become an explicit list of `Diag` events returned
  alongside the result, in emission order.
* In the source every failure path returns `None` after logging a message that
  identifies the failure; the embedding records which exit path produced the
  `None` as a `FailureKind` (`POutcome.fail`).  `POutcome.raised` models a
  Python exception escaping the function uncaught; it is reachable in the
  definitions (an exception falls through all `except` clauses when it is not
  an `Exception` subclass) and the safety theorems prove it never happens.
* The filesystem and the optional third-party backends (PyPDF2, python-docx,
  pandas, BeautifulSoup) are external collaborators; a `FileModel` records, for
  one file, the raw bytes plus the abstract outcome each backend produces on
  it (e.g. the list of per-page `extract_text` outcomes for PyPDF2).
* CPython's UTF-8 codec (used by `open(..., encoding='utf-8')`) is embedded as
  an executable byte-level decoder with `strict` / `ignore` / `replace` error
  handling, and the `csv` module's reader (default dialect) is embedded for
  quote-free content.
-/

/-! ## Diagnostics (the logging side channel) -/

/-- A diagnostic event, mirroring `logging.info` / `logging.warning` /
`logging.error` calls in the source. -/
inductive Diag where
  | info (msg : String)
  | warning (msg : String)
  | error (msg : String)
deriving DecidableEq, Repr

/-- Is this event a warning-level event? -/
def Diag.isWarning : Diag → Bool
  | .warning _ => true
  | _ => false

/-- Is this event an error-level event? -/
def Diag.isError : Diag → Bool
  | .error _ => true
  | _ => false

/-! ## Python values and exceptions -/

/-- Python run-time values that may be passed as the `filepath` argument of
`parse_document` (the public boundary takes an arbitrary object). -/
inductive PyValue where
  | str (s : String)
  | pyNone
  | int (n : Int)
  | other (descr : String)
deriving DecidableEq, Repr

/-- Does the argument pass the guard
`isinstance(filepath, str) and filepath` of `parse_document`? -/
def PyValue.isNonEmptyStr : PyValue → Bool
  | .str s => s ≠ ""
  | _ => false

/-- The Python exceptions the modelled operations can raise. -/
inductive PyExc where
  | fileNotFound
  | ioError (msg : String)
  | unicodeDecodeError
  | csvError (line : Nat)
  | jsonDecodeError
  | etParseError
  | pdfReadError
  | memoryError
  | engineError (msg : String)
  | docxOpenError (msg : String)
  | bs4Error (msg : String)
  | generic (msg : String)
deriving DecidableEq, Repr

/-- Whether the exception is an instance of Python's `Exception` class (the
class caught by the catch-all `except Exception` clauses in the source).
Every exception the modelled parsing operations raise derives from
`Exception`; in particular `MemoryError` is an `Exception` subclass in
Python 3.  (`KeyboardInterrupt`/`SystemExit` derive only from
`BaseException`, but they are asynchronous and are not raised by any of the
modelled operations.) -/
def PyExc.isException : PyExc → Bool
  | .fileNotFound => true
  | .ioError _ => true
  | .unicodeDecodeError => true
  | .csvError _ => true
  | .jsonDecodeError => true
  | .etParseError => true
  | .pdfReadError => true
  | .memoryError => true
  | .engineError _ => true
  | .docxOpenError _ => true
  | .bs4Error _ => true
  | .generic _ => true

/-! ## Result model -/

/-- A JSON value as produced by `json.load` (floats are kept as their surface
representation; no arithmetic is done on them). -/
inductive JsonValue where
  | null
  | bool (b : Bool)
  | intNum (n : Int)
  | floatNum (repr : String)
  | str (s : String)
  | arr (l : List JsonValue)
  | obj (fields : List (String × JsonValue))

/-- The format-specific content a successful parse returns: a string (txt,
xml, pdf, docx, html), a list of rows (csv), a JSON value (json), or a
mapping from sheet name to rows (xlsx/xls). -/
inductive Content where
  | text (s : String)
  | table (rows : List (List String))
  | structured (v : JsonValue)
  | sheets (m : List (String × List (List String)))

/-- The optional backends of the script (§ conditional imports). -/
inductive Backend where
  | pypdf2
  | pythonDocx
  | pandas
  | bs4
deriving DecidableEq, Repr

/-- The distinct failure exits of the source, identified by the log message
each `return None` path emits. -/
inductive FailureKind where
  | invalidPath
  | notFound
  | notAFile
  | unsupportedFormat (ext : String)
  | backendUnavailable (b : Backend)
  | fileVanished
  | ioError (msg : String)
  | csvError (line : Nat)
  | jsonDecodeError
  | xmlParseError
  | pdfReadError
  | docxError (msg : String)
  | excelEngineError (msg : String)
  | memoryError
  | htmlError (msg : String)
  | unexpected (msg : String)

/-- The outcome of one parsing call.  `ok` is a populated result, `fail` is a
`None` return whose exit path was `f`, and `raised` is an uncaught exception
escaping the function. -/
inductive POutcome where
  | ok (c : Content)
  | fail (f : FailureKind)
  | raised (e : PyExc)

/-- A typed result: either a populated content value or a failure, never an
escaped exception. -/
def POutcome.isTyped : POutcome → Bool
  | .ok _ => true
  | .fail _ => true
  | .raised _ => false

/-! ## The capability registry (module-level HAS_* flags) -/

/-- The module-level availability flags computed by the guarded imports at
the top of the script. -/
structure Caps where
  HAS_PYPDF2 : Bool
  HAS_DOCX : Bool
  HAS_PANDAS : Bool
  HAS_BS4 : Bool
deriving DecidableEq, Repr

/-- The capability query of the design: which backend is available. -/
def isAvailable (caps : Caps) : Backend → Bool
  | .pypdf2 => caps.HAS_PYPDF2
  | .pythonDocx => caps.HAS_DOCX
  | .pandas => caps.HAS_PANDAS
  | .bs4 => caps.HAS_BS4

/-- Which backend a supported extension needs, if any (`.pdf` needs PyPDF2,
`.docx` needs python-docx, `.xlsx`/`.xls` need pandas, `.html`/`.htm` need
BeautifulSoup; the stdlib formats need none). -/
def requiresBackend (ext : String) : Option Backend :=
  if ext = ".pdf" then some .pypdf2
  else if ext = ".docx" then some .pythonDocx
  else if ext = ".xlsx" ∨ ext = ".xls" then some .pandas
  else if ext = ".html" ∨ ext = ".htm" then some .bs4
  else none

/-! ## CPython's UTF-8 codec (byte-level model)

`open(filepath, 'r', encoding='utf-8')` decodes the raw bytes with the UTF-8
codec.  `errors='strict'` (the default) raises `UnicodeDecodeError` on the
first invalid sequence; `errors='ignore'` drops invalid bytes;
`errors='replace'` substitutes U+FFFD for them. -/

/-- Is `b` a UTF-8 continuation byte (`0x80 ≤ b < 0xC0`)? -/
def utf8Cont (b : Nat) : Bool := decide (0x80 ≤ b) && decide (b < 0xC0)

/-- Decode one UTF-8 sequence starting with byte `b`, the remaining bytes
being `rest`.  Returns `(some c, r)` on success with `r` the bytes after the
sequence, and `(none, rest)` when `b` does not start a valid sequence (only
`b` itself is consumed). -/
def utf8Step (b : Nat) (rest : List Nat) : Option Char × List Nat :=
  if b < 0x80 then (some (Char.ofNat b), rest)
  else if 0xC2 ≤ b ∧ b ≤ 0xDF then
    match rest with
    | c1 :: r =>
      if utf8Cont c1 then (some (Char.ofNat ((b - 0xC0) * 64 + (c1 - 0x80))), r)
      else (none, rest)
    | [] => (none, rest)
  else if 0xE0 ≤ b ∧ b ≤ 0xEF then
    match rest with
    | c1 :: c2 :: r =>
      if utf8Cont c1 ∧ utf8Cont c2 then
        let cp := (b - 0xE0) * 4096 + (c1 - 0x80) * 64 + (c2 - 0x80)
        if 0x800 ≤ cp ∧ ¬(0xD800 ≤ cp ∧ cp ≤ 0xDFFF) then (some (Char.ofNat cp), r)
        else (none, rest)
      else (none, rest)
    | _ => (none, rest)
  else if 0xF0 ≤ b ∧ b ≤ 0xF4 then
    match rest with
    | c1 :: c2 :: c3 :: r =>
      if utf8Cont c1 ∧ utf8Cont c2 ∧ utf8Cont c3 then
        let cp := (b - 0xF0) * 262144 + (c1 - 0x80) * 4096 + (c2 - 0x80) * 64 + (c3 - 0x80)
        if 0x10000 ≤ cp ∧ cp ≤ 0x10FFFF then (some (Char.ofNat cp), r)
        else (none, rest)
      else (none, rest)
    | _ => (none, rest)
  else (none, rest)

/-- Strict decoding loop; `fuel` bounds the number of sequences (the callers
pass the byte count, which suffices since every step consumes at least one
byte). -/
def utf8StrictLoop : Nat → List Nat → Option (List Char)
  | _, [] => some []
  | 0, _ :: _ => none
  | fuel + 1, b :: bs =>
    match utf8Step b bs with
    | (some c, r) => (utf8StrictLoop fuel r).map (fun l => c :: l)
    | (none, _) => none

/-- Lossy decoding loop: an invalid byte contributes `repl` (for
`errors='replace'`) or nothing (`repl = none`, for `errors='ignore'`). -/
def utf8LossyLoop (repl : Option Char) : Nat → List Nat → List Char
  | _, [] => []
  | 0, _ :: _ => []
  | fuel + 1, b :: bs =>
    match utf8Step b bs with
    | (some c, r) => c :: utf8LossyLoop repl fuel r
    | (none, r) =>
      match repl with
      | some c => c :: utf8LossyLoop repl fuel r
      | none => utf8LossyLoop repl fuel r

/-- `bytes.decode('utf-8')` with default (strict) error handling: `none`
models a raised `UnicodeDecodeError`. -/
def pyDecodeStrict (bs : List Nat) : Option String :=
  (utf8StrictLoop bs.length bs).map (fun l => ⟨l⟩)

/-- `bytes.decode('utf-8', errors='ignore')`: invalid bytes are dropped. -/
def pyDecodeIgnore (bs : List Nat) : String :=
  ⟨utf8LossyLoop none bs.length bs⟩

/-- Modelled from the spec: decoding in which "invalid bytes are replaced
rather than raising" — i.e. `errors='replace'`, each invalid byte becoming
U+FFFD.  This is the spec's description of the fallback decode; it is *not*
what the source does (the source passes `errors='ignore'`). -/
def pyDecodeReplace (bs : List Nat) : String :=
  ⟨utf8LossyLoop (some '�') bs.length bs⟩

/-- The UTF-8 bytes of an ASCII string (used for concrete fixtures; for
ASCII content the UTF-8 encoding is the identity on code points). -/
def asciiBytes (s : String) : List Nat := s.data.map Char.toNat

/-! ## Python string helpers (`str.strip`, `str.join`) -/

/-- Python's `str.strip()` whitespace class (the ASCII part). -/
def isPySpace (c : Char) : Bool :=
  c = ' ' ∨ c = '\t' ∨ c = '\n' ∨ c = '\r' ∨ c = '\x0b' ∨ c = '\x0c'

/-- `str.strip()` on a character list: drop leading and trailing
whitespace. -/
def pyStripList (l : List Char) : List Char :=
  ((l.dropWhile isPySpace).reverse.dropWhile isPySpace).reverse

/-- Python's `str.strip()`. -/
def pyStrip (s : String) : String := ⟨pyStripList s.data⟩

/-- Python's `sep.join(parts)`. -/
def joinSep (sep : String) : List String → String
  | [] => ""
  | [x] => x
  | x :: y :: xs => x ++ sep ++ joinSep sep (y :: xs)

/-! ## `os.path.splitext` and the extension table -/

/-- The basename part of a (POSIX) path: everything after the last `/`. -/
def basenameChars (l : List Char) : List Char :=
  (l.reverse.takeWhile (fun c => c ≠ '/')).reverse

/-- `os.path.splitext(p)[1]`: the last dot-suffix of the basename, provided
some non-dot character precedes the dot (so `.bashrc` has no extension). -/
def splitextExt (p : String) : String :=
  let base := basenameChars p.data
  let rev := base.reverse
  let extRev := rev.takeWhile (fun c => c ≠ '.')
  if extRev.length = rev.length then ""
  else
    let stemRev := rev.drop (extRev.length + 1)
    if stemRev.any (fun c => c ≠ '.') then ⟨'.' :: extRev.reverse⟩ else ""

/-- Lower-case a string (ASCII case folding, as `str.lower()` does on
extensions). -/
def lowerStr (s : String) : String := ⟨s.data.map Char.toLower⟩

/-- The detected extension of `parse_document`:
`extension = os.path.splitext(filepath)[1].lower()`. -/
def extLower (p : String) : String := lowerStr (splitextExt p)

/-- The fixed supported-extension table of the dispatcher. -/
def supportedExts : List String :=
  [".txt", ".csv", ".json", ".xml", ".pdf", ".docx", ".xlsx", ".xls", ".html", ".htm"]

/-! ## The `csv` module (default dialect, quote-free content) -/

/-- Record splitting of `csv.reader`: records are separated by `\n`; a
trailing record separator does not produce an extra (empty) record, and an
empty file yields no records. -/
def csvRecords (cs : List Char) : List (List Char) :=
  let recs := cs.splitOn '\n'
  if recs.getLast? = some [] then recs.dropLast else recs

/-- One record of `csv.reader`: a blank line yields the empty row; otherwise
the line is split on the `,` delimiter (model of the default dialect,
restricted to content free of the quote character). -/
def csvParseLine (line : List Char) : List String :=
  if line = [] then [] else (line.splitOn ',').map (fun f => ⟨f⟩)

/-- `list(csv.reader(f))` on decoded file content (default comma dialect,
quote-free content). -/
def csvParse (content : String) : List (List String) :=
  (csvRecords content.data).map csvParseLine

/-- Serialization of a list of records as comma/newline delimited text (the
form of a well-formed delimited file whose fields need no quoting). -/
def csvSerialize (rows : List (List String)) : String :=
  joinSep "\n" (rows.map (joinSep ","))

/-- A record is well-formed for the quote-free CSV model: it has at least one
field, it is not the lone empty field (which `csv.writer` would need to
quote), and no field contains a delimiter, quote, or record separator. -/
def csvWellFormedRow (r : List String) : Prop :=
  r ≠ [] ∧ r ≠ [""] ∧
    ∀ f ∈ r, ∀ c ∈ (f : String).data, c ≠ ',' ∧ c ≠ '\n' ∧ c ≠ '\r' ∧ c ≠ '"'

instance (r : List String) : Decidable (csvWellFormedRow r) := by
  unfold csvWellFormedRow; infer_instance

/-! ## The `xml.etree.ElementTree` model -/

/-- An element of an `ElementTree`: its tag, its attributes, its `.text`
(the character data before its first child, `none` for Python `None`), its
children, and its `.tail` (the character data after its own end tag, which
`elem.text` never reports). -/
inductive XmlNode where
  | elem (tag : String) (attrs : List (String × String)) (text : Option String)
      (children : List XmlNode) (tail : Option String)

mutual

/-- `root.iter()`: the element itself followed by its descendants, in
document order. -/
def XmlNode.iter : XmlNode → List XmlNode
  | .elem tag attrs text children tail =>
    .elem tag attrs text children tail :: XmlNode.iterList children

/-- `iter` over a forest of children, in order. -/
def XmlNode.iterList : List XmlNode → List XmlNode
  | [] => []
  | n :: ns => XmlNode.iter n ++ XmlNode.iterList ns

end

/-- The `.text` field of an element. -/
def XmlNode.textOf : XmlNode → Option String
  | .elem _ _ text _ _ => text

/-- `[elem.text for elem in root.iter() if elem.text]` — the truthy `.text`
values of all elements, in document order. -/
def xmlTextParts (root : XmlNode) : List String :=
  root.iter.filterMap (fun n =>
    match n.textOf with
    | some t => if t = "" then none else some t
    | none => none)

/-! ## File and filesystem models -/

/-- The modelled state of one file: its raw bytes, whether opening/reading it
raises (`FileNotFoundError` race, permission `IOError`, …), and the abstract
outcome each external library produces on it. -/
structure FileModel where
  /-- The raw bytes of the file on disk. -/
  bytes : List Nat := []
  /-- An exception raised by `open`/read, if any (e.g. the file vanished
  between validation and read, or a permission error). -/
  ioError : Option PyExc := none
  /-- `ET.parse(filepath)` outcome: the element tree, or the exception the
  parser raises on malformed markup. -/
  xml : Except PyExc XmlNode := .error .etParseError
  /-- `PyPDF2.PdfReader` outcome: per-page `extract_text()` outcomes in page
  order (`.error msg` = that page's extraction raised), or the exception
  raised opening the document. -/
  pdfPages : Except PyExc (List (Except String String)) := .error .pdfReadError
  /-- `docx.Document(filepath)` outcome: the paragraph texts in document
  order, or the exception raised on a corrupted container. -/
  docxParas : Except PyExc (List String) := .error (.docxOpenError "corrupt")
  /-- `pd.read_excel(filepath, sheet_name=None)` outcome: sheet name to rows
  of cells, or the exception pandas raises. -/
  excelSheets : Except PyExc (List (String × List (List String))) :=
    .error (.engineError "bad container")
  /-- `json.load` outcome on the decoded text. -/
  json : Except PyExc JsonValue := .error .jsonDecodeError
  /-- BeautifulSoup `get_text('\n', strip=True)` outcome after script/style
  removal, or the exception soup construction raises. -/
  soupText : Except PyExc String := .error (.bs4Error "boom")

/-- The filesystem as the dispatcher sees it: `os.path.exists`,
`os.path.isfile`, and the per-path file state. -/
structure FileSystem where
  pathExists : String → Bool
  pathIsFile : String → Bool
  file : String → FileModel

/-! ## The per-format parsing functions -/

/-- The `except` clauses of `parse_txt` (`FileNotFoundError`, `IOError`,
`Exception`), applied to a raised exception `e`. -/
def txtExceptClauses (p : String) (e : PyExc) : POutcome × List Diag :=
  match e with
  | .fileNotFound => (.fail .fileVanished, [.error s!"File not found: {p}"])
  | .ioError m => (.fail (.ioError m), [.error s!"IOError reading TXT file {p}: {m}"])
  | e =>
    if e.isException then
      (.fail (.unexpected "TXT"), [.error s!"Unexpected error parsing TXT file {p}"])
    else (.raised e, [])

/-- `parse_txt`: read the whole file as text, UTF-8 first; on
`UnicodeDecodeError` retry once with `sys.getdefaultencoding()` and
`errors='ignore'`. -/
def parse_txt (fm : FileModel) (p : String) : POutcome × List Diag :=
  match fm.ioError with
  | some e => txtExceptClauses p e
  | none =>
    match pyDecodeStrict fm.bytes with
    | some content =>
      (.ok (.text content), [.info s!"Successfully parsed TXT: {p}"])
    | none =>
      (.ok (.text (pyDecodeIgnore fm.bytes)),
        [.warning s!"UTF-8 decoding failed for {p}. Trying system default encoding.",
         .info s!"Successfully parsed TXT: {p}"])

/-- The `except` clauses of `parse_csv` (`FileNotFoundError`, `csv.Error`,
`IOError`, `Exception`). -/
def csvExceptClauses (p : String) (e : PyExc) : POutcome × List Diag :=
  match e with
  | .fileNotFound => (.fail .fileVanished, [.error s!"File not found: {p}"])
  | .csvError line => (.fail (.csvError line), [.error s!"CSV parsing error in file {p}"])
  | .ioError m => (.fail (.ioError m), [.error s!"IOError reading CSV file {p}: {m}"])
  | e =>
    if e.isException then
      (.fail (.unexpected "CSV"), [.error s!"Unexpected error parsing CSV file {p}"])
    else (.raised e, [])

/-- `parse_csv`: read the file as UTF-8 text (strict — a `UnicodeDecodeError`
during row iteration is caught by the `except Exception` clause, not
retried) and collect `csv.reader` rows. -/
def parse_csv (fm : FileModel) (p : String) : POutcome × List Diag :=
  match fm.ioError with
  | some e => csvExceptClauses p e
  | none =>
    match pyDecodeStrict fm.bytes with
    | none => csvExceptClauses p .unicodeDecodeError
    | some content =>
      let rows := csvParse content
      let n := rows.length
      (.ok (.table rows), [.info s!"Successfully parsed CSV: {p} ({n} rows)"])

/-- The `except` clauses of `parse_json` (`FileNotFoundError`,
`json.JSONDecodeError`, `IOError`, `Exception`). -/
def jsonExceptClauses (p : String) (e : PyExc) : POutcome × List Diag :=
  match e with
  | .fileNotFound => (.fail .fileVanished, [.error s!"File not found: {p}"])
  | .jsonDecodeError => (.fail .jsonDecodeError, [.error s!"Invalid JSON format in {p}"])
  | .ioError m => (.fail (.ioError m), [.error s!"IOError reading JSON file {p}: {m}"])
  | e =>
    if e.isException then
      (.fail (.unexpected "JSON"), [.error s!"Unexpected error parsing JSON file {p}"])
    else (.raised e, [])

/-- `parse_json`: `json.load` over the UTF-8 decoded file. -/
def parse_json (fm : FileModel) (p : String) : POutcome × List Diag :=
  match fm.ioError with
  | some e => jsonExceptClauses p e
  | none =>
    match pyDecodeStrict fm.bytes with
    | none => jsonExceptClauses p .unicodeDecodeError
    | some _ =>
      match fm.json with
      | .error e => jsonExceptClauses p e
      | .ok v => (.ok (.structured v), [.info s!"Successfully parsed JSON: {p}"])

/-- The `except` clauses of `parse_xml` (`FileNotFoundError`,
`ET.ParseError`, `IOError`, `Exception`). -/
def xmlExceptClauses (p : String) (e : PyExc) : POutcome × List Diag :=
  match e with
  | .fileNotFound => (.fail .fileVanished, [.error s!"File not found: {p}"])
  | .etParseError => (.fail .xmlParseError, [.error s!"XML parsing error in {p}"])
  | .ioError m => (.fail (.ioError m), [.error s!"IOError reading XML file {p}: {m}"])
  | e =>
    if e.isException then
      (.fail (.unexpected "XML"), [.error s!"Unexpected error processing XML file {p}"])
    else (.raised e, [])

/-- `parse_xml`: parse the tree, collect the truthy `elem.text` of every
element, strip each, keep the non-blank ones and join them with a single
space. -/
def parse_xml (fm : FileModel) (p : String) : POutcome × List Diag :=
  match fm.ioError with
  | some e => xmlExceptClauses p e
  | none =>
    match fm.xml with
    | .error e => xmlExceptClauses p e
    | .ok root =>
      let text_content :=
        joinSep " " (((xmlTextParts root).map pyStrip).filter (fun s => s ≠ ""))
      (.ok (.text text_content),
        [.info s!"Successfully parsed XML and extracted text: {p}"])

/-- The `except` clauses of `parse_pdf` (`FileNotFoundError`,
`PyPDF2.errors.PdfReadError`, `IOError`, `Exception`). -/
def pdfExceptClauses (p : String) (e : PyExc) : POutcome × List Diag :=
  match e with
  | .fileNotFound => (.fail .fileVanished, [.error s!"File not found: {p}"])
  | .pdfReadError => (.fail .pdfReadError, [.error s!"PyPDF2 error reading PDF {p}"])
  | .ioError m => (.fail (.ioError m), [.error s!"IOError reading PDF file {p}: {m}"])
  | e =>
    if e.isException then
      (.fail (.unexpected "PDF"), [.error s!"Unexpected error parsing PDF file {p}"])
    else (.raised e, [])

/-- The page loop of `parse_pdf`: accumulate `page_text + "\n"` for each page
whose `extract_text()` returns truthy text; a page whose extraction raises is
logged as a warning and skipped (`i` is the 0-based index of the current
page, used only in the warning message). -/
def pdfPageLoop (p : String) : List (Except String String) → Nat → String → String × List Diag
  | [], _, acc => (acc, [])
  | .ok t :: rest, i, acc =>
    pdfPageLoop p rest (i + 1) (if t = "" then acc else acc ++ t ++ "\n")
  | .error msg :: rest, i, acc =>
    let pageno := i + 1
    let r := pdfPageLoop p rest (i + 1) acc
    (r.1, Diag.warning s!"Could not extract text from page {pageno} in {p}: {msg}" :: r.2)

/-- `parse_pdf`: guarded on `HAS_PYPDF2`; extracts text page by page,
continuing past per-page failures, and strips the concatenation. -/
def parse_pdf (caps : Caps) (fm : FileModel) (p : String) : POutcome × List Diag :=
  if caps.HAS_PYPDF2 = false then
    (.fail (.backendUnavailable .pypdf2),
      [.error "PyPDF2 library is required for PDF parsing but not found."])
  else
    match fm.ioError with
    | some e => pdfExceptClauses p e
    | none =>
      match fm.pdfPages with
      | .error e => pdfExceptClauses p e
      | .ok pages =>
        let n := pages.length
        let r := pdfPageLoop p pages 0 ""
        (.ok (.text (pyStrip r.1)),
          Diag.info s!"Reading {n} pages from PDF: {p}..." ::
            r.2 ++ [Diag.info s!"Finished extracting text from PDF: {p}"])

/-- The `except` clauses of `parse_docx` (`FileNotFoundError`, then a
catch-all `Exception` clause for backend errors such as a corrupted
container). -/
def docxExceptClauses (p : String) (e : PyExc) : POutcome × List Diag :=
  match e with
  | .fileNotFound => (.fail .fileVanished, [.error s!"File not found: {p}"])
  | e =>
    if e.isException then
      (.fail (.docxError "DOCX"), [.error s!"Error parsing DOCX file {p}"])
    else (.raised e, [])

/-- `parse_docx`: guarded on `HAS_DOCX`; joins the truthy paragraph texts
with newlines. -/
def parse_docx (caps : Caps) (fm : FileModel) (p : String) : POutcome × List Diag :=
  if caps.HAS_DOCX = false then
    (.fail (.backendUnavailable .pythonDocx),
      [.error "python-docx library is required for DOCX parsing but not found."])
  else
    match fm.ioError with
    | some e => docxExceptClauses p e
    | none =>
      match fm.docxParas with
      | .error e => docxExceptClauses p e
      | .ok paras =>
        let text_content := joinSep "\n" (paras.filter (fun t => t ≠ ""))
        (.ok (.text text_content), [.info s!"Successfully parsed DOCX: {p}"])

/-- The `except` clauses of `parse_excel` (`FileNotFoundError`,
`(KeyError, ValueError, ImportError)`, `MemoryError`, `Exception`). -/
def excelExceptClauses (p : String) (e : PyExc) : POutcome × List Diag :=
  match e with
  | .fileNotFound => (.fail .fileVanished, [.error s!"File not found: {p}"])
  | .engineError m =>
    (.fail (.excelEngineError m),
      [.error s!"Error parsing Excel file {p} (check file/libraries): {m}"])
  | .memoryError =>
    (.fail .memoryError,
      [.error s!"MemoryError parsing Excel file {p}. File may be too large for pandas."])
  | e =>
    if e.isException then
      (.fail (.unexpected "Excel"), [.error s!"Unexpected error parsing Excel file {p}"])
    else (.raised e, [])

/-- `parse_excel`: guarded on `HAS_PANDAS`; chooses the engine from the
(lower-cased) extension and loads every sheet eagerly. -/
def parse_excel (caps : Caps) (fm : FileModel) (p : String) : POutcome × List Diag :=
  if caps.HAS_PANDAS = false then
    (.fail (.backendUnavailable .pandas),
      [.error "pandas, openpyxl, xlrd libraries required for Excel parsing but not found."])
  else
    let engine :=
      if (".xlsx" : String).data.isSuffixOf (lowerStr p).data then "openpyxl" else "xlrd"
    match fm.ioError with
    | some e => excelExceptClauses p e
    | none =>
      match fm.excelSheets with
      | .error e => excelExceptClauses p e
      | .ok sheets =>
        let n := sheets.length
        (.ok (.sheets sheets),
          [.info s!"Successfully parsed Excel ({engine}): {p} ({n} sheets)"])

/-- The `except` clauses of `parse_html` (`FileNotFoundError`, `IOError`,
then a catch-all `Exception` clause for BeautifulSoup errors — which also
catches a `UnicodeDecodeError` from the strict UTF-8 read). -/
def htmlExceptClauses (p : String) (e : PyExc) : POutcome × List Diag :=
  match e with
  | .fileNotFound => (.fail .fileVanished, [.error s!"File not found: {p}"])
  | .ioError m => (.fail (.ioError m), [.error s!"IOError reading HTML file {p}: {m}"])
  | e =>
    if e.isException then
      (.fail (.htmlError "HTML"), [.error s!"Error parsing HTML file {p}"])
    else (.raised e, [])

/-- `parse_html`: guarded on `HAS_BS4`; reads the file as strict UTF-8 text,
removes script/style subtrees and extracts the visible text (the soup
behaviour is the `soupText` oracle of the file model). -/
def parse_html (caps : Caps) (fm : FileModel) (p : String) : POutcome × List Diag :=
  if caps.HAS_BS4 = false then
    (.fail (.backendUnavailable .bs4),
      [.error "beautifulsoup4 and lxml libraries required for HTML parsing but not found."])
  else
    match fm.ioError with
    | some e => htmlExceptClauses p e
    | none =>
      match pyDecodeStrict fm.bytes with
      | none => htmlExceptClauses p .unicodeDecodeError
      | some _ =>
        match fm.soupText with
        | .error e => htmlExceptClauses p e
        | .ok text =>
          (.ok (.text text),
            [.info s!"Successfully parsed HTML and extracted text: {p}"])

/-! ## The dispatcher -/

/-- The extension dispatch chain of `parse_document` (source lines 363-381):
route the validated path to the strategy matching its lower-cased extension,
or log a warning for an unsupported format. -/
def dispatchByExt (caps : Caps) (fm : FileModel) (p : String) (ext : String) :
    POutcome × List Diag :=
  if ext = ".txt" then parse_txt fm p
  else if ext = ".csv" then parse_csv fm p
  else if ext = ".json" then parse_json fm p
  else if ext = ".xml" then parse_xml fm p
  else if ext = ".pdf" then parse_pdf caps fm p
  else if ext = ".docx" then parse_docx caps fm p
  else if ext = ".xlsx" ∨ ext = ".xls" then parse_excel caps fm p
  else if ext = ".html" ∨ ext = ".htm" then parse_html caps fm p
  else
    (.fail (.unsupportedFormat ext),
      [.warning s!"Unsupported file format {ext} for file: {p}"])

/-- `parse_document`: validate the argument and the path, detect the format
from the extension, dispatch to the matching strategy, and log the final
outcome (`info` on success, `error` on failure; an escaped exception skips
the epilogue). -/
def parse_document (caps : Caps) (fs : FileSystem) (v : PyValue) :
    POutcome × List Diag :=
  match v with
  | .str p =>
    if p = "" then (.fail .invalidPath, [.error "Invalid filepath provided."])
    else if fs.pathExists p = false then
      (.fail .notFound, [.error s!"File does not exist: {p}"])
    else if fs.pathIsFile p = false then
      (.fail .notAFile, [.error s!"Path is not a file: {p}"])
    else
      let ext := extLower p
      let inner := dispatchByExt caps (fs.file p) p ext
      let epilogue : List Diag :=
        match inner.1 with
        | .ok _ => [Diag.info s!"Finished parsing: {p}"]
        | .fail _ => [Diag.error s!"Failed to parse: {p}"]
        | .raised _ => []
      (inner.1,
        Diag.info s!"Attempting to parse file: {p} (Detected type: {ext})" ::
          inner.2 ++ epilogue)
  | _ => (.fail .invalidPath, [.error "Invalid filepath provided."])

/-! ## Derived definitions used by the verification -/

/-- The text contribution of a page list: `page_text + "\n"` for each page
whose extraction returned non-blank text. -/
def pdfCat : List (Except String String) → String
  | [] => ""
  | .ok t :: rest => (if t = "" then "" else t ++ "\n") ++ pdfCat rest
  | .error _ :: rest => pdfCat rest

/-- Did this page's `extract_text()` raise? -/
def pageFailed : Except String String → Bool
  | .error _ => true
  | .ok _ => false

/-- The texts of the successfully extracted pages, in page order. -/
def okTexts : List (Except String String) → List String :=
  List.filterMap (fun pg => match pg with | .ok t => some t | .error _ => none)

/-- "text + newline" termination form of a list of page texts. -/
def nlTerm : List String → String
  | [] => ""
  | t :: ts => t ++ "\n" ++ nlTerm ts

/-- The serialized form of one record. -/
def csvLine (r : List String) : List Char :=
  List.intercalate [','] (r.map String.data)

/-- Modelled from the spec: "collects the text content of every node
(ignoring element structure and attributes), trims each fragment, discards
empty fragments, and joins the remainder with a single space" — with "text
content of a node" being the `ElementTree` `.text` field of the element. -/
def specMarkupText (root : XmlNode) : String :=
  joinSep " " (((root.iter.filterMap XmlNode.textOf).map pyStrip).filter (fun s => s ≠ ""))

/-- Modelled from the spec: a variant is "non-empty" when its payload is
non-empty (non-empty text, at least one row, at least one sheet; a
structured value is always a populated value). -/
def contentNonempty : Content → Bool
  | .text s => s ≠ ""
  | .table rows => rows ≠ []
  | .structured _ => true
  | .sheets m => m ≠ []

/-- Does a successful content value carry the variant that the detected
format is specified to produce?  (Text for `.txt`/`.xml`/`.pdf`/`.docx`/
`.html`/`.htm`, Table for `.csv`, StructuredValue for `.json`, SheetSet for
`.xlsx`/`.xls`; an unsupported extension never succeeds.) -/
def formatVariantOk (ext : String) (c : Content) : Bool :=
  if ext = ".txt" ∨ ext = ".xml" ∨ ext = ".pdf" ∨ ext = ".docx" ∨ ext = ".html" ∨ ext = ".htm" then
    match c with | .text _ => true | _ => false
  else if ext = ".csv" then
    match c with | .table _ => true | _ => false
  else if ext = ".json" then
    match c with | .structured _ => true | _ => false
  else if ext = ".xlsx" ∨ ext = ".xls" then
    match c with | .sheets _ => true | _ => false
  else false

/-! ## Concrete fixtures (sample files and capability states) -/

/-- All four optional backends available. -/
def capsAll : Caps := ⟨true, true, true, true⟩

/-- No optional backend available. -/
def capsNoBackends : Caps := ⟨false, false, false, false⟩

/-- The element tree of `<data><item name="A">1</item><item name="B">2</item></data>`. -/
def sampleXmlTree : XmlNode :=
  .elem "data" [] none
    [.elem "item" [("name", "A")] (some "1") [] none,
     .elem "item" [("name", "B")] (some "2") [] none] none

/-- The sample rows of the demonstration CSV file. -/
def sampleCsvRows : List (List String) :=
  [["ColA", "ColB"], ["Data1", "10"], ["Data2", "20"]]

/-- A small filesystem of sample files used to instantiate the theorems. -/
def fsFixture : FileSystem where
  pathExists p :=
    ["sample.txt", "empty.txt", "bad.txt", "sample.csv", "bad.csv", "sample.xml",
      "doc.pdf", "blank.pdf", "report.docx", "file.xyz"].contains p
  pathIsFile p :=
    ["sample.txt", "empty.txt", "bad.txt", "sample.csv", "bad.csv", "sample.xml",
      "doc.pdf", "blank.pdf", "report.docx", "file.xyz"].contains p
  file p :=
    if p = "sample.txt" then {bytes := asciiBytes "This is line one.\nThis is line two."}
    else if p = "empty.txt" then {}
    else if p = "bad.txt" then {bytes := [97, 255, 98]}
    else if p = "sample.csv" then {bytes := asciiBytes "ColA,ColB\nData1,10\nData2,20"}
    else if p = "bad.csv" then {bytes := [97, 255, 98]}
    else if p = "sample.xml" then {xml := .ok sampleXmlTree}
    else if p = "doc.pdf" then
      {pdfPages := .ok [.ok "Page one.", .error "boom", .ok "Page three."]}
    else if p = "blank.pdf" then
      {pdfPages := .ok [.ok "a", .error "boom", .ok "", .ok "b"]}
    else {}

/-! ## General lemmas about the string helpers -/

theorem pyStripList_append_newline (l : List Char) :
    pyStripList (l ++ ['\n']) = pyStripList l := by
  unfold pyStripList
  rw [List.dropWhile_append]
  by_cases he : (l.dropWhile isPySpace).isEmpty
  · rw [if_pos he]
    rw [List.isEmpty_iff] at he
    rw [he]
    rfl
  · rw [if_neg he, List.reverse_append]
    show ((['\n'] ++ (l.dropWhile isPySpace).reverse).dropWhile isPySpace).reverse = _
    rw [List.singleton_append, List.dropWhile_cons]
    simp [isPySpace]

theorem pyStrip_append_newline (s : String) : pyStrip (s ++ "\n") = pyStrip s := by
  unfold pyStrip
  have h : (s ++ "\n").data = s.data ++ ['\n'] := String.data_append s "\n"
  rw [h, pyStripList_append_newline]

theorem joinSep_data (sep : String) (l : List String) :
    (joinSep sep l).data = List.intercalate sep.data (l.map String.data) := by
  induction l with
  | nil => simp [joinSep, List.intercalate]
  | cons x xs ih =>
    cases xs with
    | nil => simp [joinSep, List.intercalate]
    | cons y ys =>
      rw [joinSep, String.data_append, String.data_append, ih]
      simp [List.intercalate, List.intersperse]

/-! ## Lemmas about the PDF page loop -/

theorem pdfPageLoop_text (p : String) (pages : List (Except String String))
    (i : Nat) (acc : String) : (pdfPageLoop p pages i acc).1 = acc ++ pdfCat pages := by
  induction pages generalizing i acc with
  | nil => simp [pdfPageLoop, pdfCat, String.append_empty]
  | cons pg rest ih =>
    cases pg with
    | ok t =>
      rw [pdfPageLoop, ih, pdfCat]
      by_cases h : t = "" <;> simp [h, String.append_assoc, String.append_empty]
    | error m =>
      rw [pdfPageLoop]
      simp only [pdfCat]
      exact ih _ _

theorem pdfPageLoop_warnings (p : String) (pages : List (Except String String))
    (i : Nat) (acc : String) :
    ((pdfPageLoop p pages i acc).2).countP Diag.isWarning = pages.countP pageFailed := by
  induction pages generalizing i acc with
  | nil => rfl
  | cons pg rest ih =>
    cases pg with
    | ok t =>
      rw [pdfPageLoop]
      simp only [List.countP_cons, pageFailed, ih]
      simp [pageFailed]
    | error m =>
      rw [pdfPageLoop]
      simp [List.countP_cons, Diag.isWarning, pageFailed, ih]

theorem nlTerm_eq_joinSep (ts : List String) (h : ts ≠ []) :
    nlTerm ts = joinSep "\n" ts ++ "\n" := by
  induction ts with
  | nil => exact absurd rfl h
  | cons t ts ih =>
    cases ts with
    | nil => simp [nlTerm, joinSep, String.append_empty]
    | cons y ys =>
      rw [nlTerm, ih (by simp), joinSep]
      simp [String.append_assoc]

theorem pyStrip_nlTerm (ts : List String) :
    pyStrip (nlTerm ts) = pyStrip (joinSep "\n" ts) := by
  cases ts with
  | nil => rfl
  | cons t ts =>
    rw [nlTerm_eq_joinSep _ (by simp), pyStrip_append_newline]

theorem nlTerm_append (a b : List String) : nlTerm (a ++ b) = nlTerm a ++ nlTerm b := by
  induction a with
  | nil => simp [nlTerm, String.empty_append]
  | cons t ts ih => simp [nlTerm, ih, String.append_assoc]

theorem pdfCat_append (a b : List (Except String String)) :
    pdfCat (a ++ b) = pdfCat a ++ pdfCat b := by
  induction a with
  | nil => simp [pdfCat, String.empty_append]
  | cons pg rest ih =>
    cases pg with
    | ok t => simp [pdfCat, ih, String.append_assoc]
    | error m => simp [pdfCat, ih]

theorem pdfCat_of_ok (pages : List (Except String String))
    (h : ∀ pg ∈ pages, ∃ t, pg = .ok t) :
    pdfCat pages = nlTerm ((okTexts pages).filter (fun t => t ≠ "")) := by
  induction pages with
  | nil => rfl
  | cons pg rest ih =>
    obtain ⟨t, rfl⟩ := h pg (List.mem_cons_self pg rest)
    rw [pdfCat, ih (fun q hq => h q (List.mem_cons_of_mem _ hq))]
    by_cases ht : t = ""
    · subst ht
      simp [okTexts, String.empty_append]
    · simp [okTexts, nlTerm, ht, String.append_assoc]

theorem countP_pageFailed_of_ok (pages : List (Except String String))
    (h : ∀ pg ∈ pages, ∃ t, pg = .ok t) :
    pages.countP pageFailed = 0 := by
  induction pages with
  | nil => rfl
  | cons pg rest ih =>
    obtain ⟨t, rfl⟩ := h pg (List.mem_cons_self pg rest)
    rw [List.countP_cons]
    simp [pageFailed, ih (fun q hq => h q (List.mem_cons_of_mem _ hq))]

theorem okTexts_append (a b : List (Except String String)) :
    okTexts (a ++ b) = okTexts a ++ okTexts b := by
  simp [okTexts, List.filterMap_append]

/-! ## Lemmas about the CSV model -/

theorem intercalate_cons_cons {α : Type} (sep x : List α) (y : List α) (ys : List (List α)) :
    List.intercalate sep (x :: y :: ys) = x ++ sep ++ List.intercalate sep (y :: ys) := by
  simp [List.intercalate, List.intersperse]

theorem intercalate_single {α : Type} (sep x : List α) :
    List.intercalate sep [x] = x := by
  simp [List.intercalate]

theorem str_data_ne_nil {f : String} (h : f ≠ "") : f.data ≠ [] := by
  intro hd
  exact h (String.ext hd)

theorem csvLine_ne_nil {r : List String} (h : csvWellFormedRow r) : csvLine r ≠ [] := by
  obtain ⟨hne, hne1, -⟩ := h
  match r with
  | [] => exact absurd rfl hne
  | [f] =>
    rw [csvLine, List.map_cons, List.map_nil, intercalate_single]
    exact str_data_ne_nil (fun hf => hne1 (by rw [hf]))
  | f :: g :: t =>
    rw [csvLine, List.map_cons, List.map_cons, intercalate_cons_cons]
    intro hcontra
    have : (f.data ++ [','] ++ List.intercalate [','] (g.data :: t.map String.data)).length = 0 := by
      rw [hcontra]; rfl
    simp at this

theorem mem_csvLine {r : List String} {c : Char} (hc : c ∈ csvLine r) :
    c = ',' ∨ ∃ f ∈ r, c ∈ (f : String).data := by
  induction r with
  | nil => simp [csvLine, List.intercalate] at hc
  | cons f t ih =>
    cases t with
    | nil =>
      rw [csvLine, List.map_cons, List.map_nil, intercalate_single] at hc
      exact Or.inr ⟨f, by simp, hc⟩
    | cons g t' =>
      rw [csvLine, List.map_cons, List.map_cons, intercalate_cons_cons] at hc
      rcases List.mem_append.mp hc with hc1 | hc2
      · rcases List.mem_append.mp hc1 with hf | hsep
        · exact Or.inr ⟨f, by simp, hf⟩
        · exact Or.inl (by simpa using hsep)
      · rcases ih (by rw [csvLine, List.map_cons]; exact hc2) with h | ⟨g', hg', hcg⟩
        · exact Or.inl h
        · exact Or.inr ⟨g', List.mem_cons_of_mem _ hg', hcg⟩

theorem newline_not_mem_csvLine {r : List String} (h : csvWellFormedRow r) :
    '\n' ∉ csvLine r := by
  intro hmem
  rcases mem_csvLine hmem with hcomma | ⟨f, hf, hcf⟩
  · exact absurd hcomma (by decide)
  · exact (h.2.2 f hf '\n' hcf).2.1 rfl

theorem csvParseLine_csvLine {r : List String} (h : csvWellFormedRow r) :
    csvParseLine (csvLine r) = r := by
  rw [csvParseLine, if_neg (by simpa using csvLine_ne_nil h)]
  rw [csvLine, List.splitOn_intercalate (r.map String.data) ','
    (by
      intro l hl hmem
      obtain ⟨f, hf, rfl⟩ := List.mem_map.mp hl
      exact (h.2.2 f hf ',' hmem).1 rfl)
    (by
      intro hnil
      exact h.1 (List.map_eq_nil_iff.mp hnil))]
  rw [List.map_map]
  have hid : ((fun f => (⟨f⟩ : String)) ∘ String.data) = id := by
    funext f
    rfl
  rw [hid, List.map_id]

theorem csvParse_csvSerialize (rows : List (List String))
    (h : ∀ r ∈ rows, csvWellFormedRow r) :
    csvParse (csvSerialize rows) = rows := by
  cases rows with
  | nil => rfl
  | cons r0 rest =>
    have hdata : (csvSerialize (r0 :: rest)).data
        = List.intercalate ['\n'] ((r0 :: rest).map csvLine) := by
      rw [csvSerialize, joinSep_data, List.map_map]
      congr 1
      apply List.map_congr_left
      intro r _
      show (joinSep "," r).data = csvLine r
      rw [joinSep_data]
      rfl
    have hsplit : (List.intercalate ['\n'] ((r0 :: rest).map csvLine)).splitOn '\n'
        = (r0 :: rest).map csvLine :=
      List.splitOn_intercalate ((r0 :: rest).map csvLine) '\n'
        (fun l hl => by
          obtain ⟨r, hr, rfl⟩ := List.mem_map.mp hl
          exact newline_not_mem_csvLine (h r hr))
        (by simp)
    simp only [csvParse, csvRecords, hdata, hsplit]
    rw [if_neg ?hneg]
    case hneg =>
      intro hlast
      have hm : ([] : List Char) ∈ (r0 :: rest).map csvLine := by
        obtain ⟨hne, heq⟩ := List.mem_getLast?_eq_getLast (Option.mem_def.mpr hlast)
        rw [heq]
        exact List.getLast_mem hne
      obtain ⟨r, hr, hrl⟩ := List.mem_map.mp hm
      exact csvLine_ne_nil (h r hr) hrl
    rw [List.map_map]
    have hpt : ∀ r ∈ r0 :: rest, (csvParseLine ∘ csvLine) r = id r := by
      intro r hr
      exact csvParseLine_csvLine (h r hr)
    rw [List.map_congr_left hpt, List.map_id]

/-! ## Lemmas about the markup text extraction -/

theorem filterMap_truthy {α : Type} (l : List α) (f : α → Option String) :
    (l.filterMap fun a =>
        match f a with
        | some t => if t = "" then none else some t
        | none => none)
      = (l.filterMap f).filter (fun t => t ≠ "") := by
  induction l with
  | nil => rfl
  | cons a l ih =>
    rw [List.filterMap_cons, List.filterMap_cons]
    cases hfa : f a with
    | none => simpa using ih
    | some t =>
      by_cases ht : t = "" <;> simp [ht, ih]

theorem map_strip_filter (l : List String) :
    (((l.filter fun t => t ≠ "").map pyStrip).filter fun s => s ≠ "")
      = ((l.map pyStrip).filter fun s => s ≠ "") := by
  induction l with
  | nil => rfl
  | cons t l ih =>
    simp only [ne_eq, decide_not] at ih ⊢
    by_cases ht : t = ""
    · subst ht
      simp [show pyStrip "" = "" from rfl, ih]
    · simp only [List.filter_cons, List.map_cons]
      by_cases hst : pyStrip t = "" <;> simp [ht, hst, ih]

theorem parse_xml_text (fm : FileModel) (p : String) (root : XmlNode)
    (hio : fm.ioError = none) (hxml : fm.xml = .ok root) :
    parse_xml fm p
      = (.ok (.text (specMarkupText root)),
         [.info s!"Successfully parsed XML and extracted text: {p}"]) := by
  have harg : xmlTextParts root = (root.iter.filterMap XmlNode.textOf).filter (fun t => t ≠ "") :=
    filterMap_truthy root.iter XmlNode.textOf
  simp only [parse_xml, hio, hxml, specMarkupText, harg, map_strip_filter]

/-! ## Dispatcher reduction lemmas -/

theorem dispatch_txt (caps : Caps) (fm : FileModel) (p : String) :
    dispatchByExt caps fm p ".txt" = parse_txt fm p := by
  rfl

theorem dispatch_csv (caps : Caps) (fm : FileModel) (p : String) :
    dispatchByExt caps fm p ".csv" = parse_csv fm p := by
  rfl

theorem dispatch_json (caps : Caps) (fm : FileModel) (p : String) :
    dispatchByExt caps fm p ".json" = parse_json fm p := by
  rfl

theorem dispatch_xml (caps : Caps) (fm : FileModel) (p : String) :
    dispatchByExt caps fm p ".xml" = parse_xml fm p := by
  rfl

theorem dispatch_pdf (caps : Caps) (fm : FileModel) (p : String) :
    dispatchByExt caps fm p ".pdf" = parse_pdf caps fm p := by
  rfl

theorem dispatch_docx (caps : Caps) (fm : FileModel) (p : String) :
    dispatchByExt caps fm p ".docx" = parse_docx caps fm p := by
  rfl

theorem dispatch_xlsx (caps : Caps) (fm : FileModel) (p : String) :
    dispatchByExt caps fm p ".xlsx" = parse_excel caps fm p := by
  rfl

theorem dispatch_xls (caps : Caps) (fm : FileModel) (p : String) :
    dispatchByExt caps fm p ".xls" = parse_excel caps fm p := by
  rfl

theorem dispatch_html (caps : Caps) (fm : FileModel) (p : String) :
    dispatchByExt caps fm p ".html" = parse_html caps fm p := by
  rfl

theorem dispatch_htm (caps : Caps) (fm : FileModel) (p : String) :
    dispatchByExt caps fm p ".htm" = parse_html caps fm p := by
  rfl

/-- On a validated path (non-empty, existing, regular file) `parse_document`
runs the dispatch chain on the lower-cased extension and appends the
prologue/epilogue log events. -/
theorem parse_document_valid (caps : Caps) (fs : FileSystem) (p : String)
    (hp : p ≠ "") (hex : fs.pathExists p = true) (hfile : fs.pathIsFile p = true) :
    parse_document caps fs (.str p)
      = ((dispatchByExt caps (fs.file p) p (extLower p)).1,
          Diag.info s!"Attempting to parse file: {p} (Detected type: {extLower p})" ::
            (dispatchByExt caps (fs.file p) p (extLower p)).2 ++
              (match (dispatchByExt caps (fs.file p) p (extLower p)).1 with
                | .ok _ => [Diag.info s!"Finished parsing: {p}"]
                | .fail _ => [Diag.error s!"Failed to parse: {p}"]
                | .raised _ => [])) := by
  rw [parse_document, if_neg hp, if_neg (by rw [hex]; exact fun h => nomatch h),
    if_neg (by rw [hfile]; exact fun h => nomatch h)]

/-! ## Shape lemmas for the parsing functions -/

theorem isException_true (e : PyExc) : e.isException = true := by
  cases e <;> rfl

theorem txtExceptClauses_isTyped (p : String) (e : PyExc) :
    (txtExceptClauses p e).1.isTyped = true := by
  cases e <;> rfl

theorem csvExceptClauses_isTyped (p : String) (e : PyExc) :
    (csvExceptClauses p e).1.isTyped = true := by
  cases e <;> rfl

theorem jsonExceptClauses_isTyped (p : String) (e : PyExc) :
    (jsonExceptClauses p e).1.isTyped = true := by
  cases e <;> rfl

theorem xmlExceptClauses_isTyped (p : String) (e : PyExc) :
    (xmlExceptClauses p e).1.isTyped = true := by
  cases e <;> rfl

theorem pdfExceptClauses_isTyped (p : String) (e : PyExc) :
    (pdfExceptClauses p e).1.isTyped = true := by
  cases e <;> rfl

theorem docxExceptClauses_isTyped (p : String) (e : PyExc) :
    (docxExceptClauses p e).1.isTyped = true := by
  cases e <;> rfl

theorem excelExceptClauses_isTyped (p : String) (e : PyExc) :
    (excelExceptClauses p e).1.isTyped = true := by
  cases e <;> rfl

theorem htmlExceptClauses_isTyped (p : String) (e : PyExc) :
    (htmlExceptClauses p e).1.isTyped = true := by
  cases e <;> rfl

theorem parse_txt_isTyped (fm : FileModel) (p : String) :
    (parse_txt fm p).1.isTyped = true := by
  rcases hio : fm.ioError with - | e
  · simp only [parse_txt, hio]
    cases pyDecodeStrict fm.bytes <;> rfl
  · simp only [parse_txt, hio]
    exact txtExceptClauses_isTyped p e

theorem parse_csv_isTyped (fm : FileModel) (p : String) :
    (parse_csv fm p).1.isTyped = true := by
  rcases hio : fm.ioError with - | e
  · simp only [parse_csv, hio]
    cases pyDecodeStrict fm.bytes
    · exact csvExceptClauses_isTyped p .unicodeDecodeError
    · rfl
  · simp only [parse_csv, hio]
    exact csvExceptClauses_isTyped p e

theorem parse_json_isTyped (fm : FileModel) (p : String) :
    (parse_json fm p).1.isTyped = true := by
  rcases hio : fm.ioError with - | e
  · simp only [parse_json, hio]
    cases pyDecodeStrict fm.bytes
    · exact jsonExceptClauses_isTyped p .unicodeDecodeError
    · rcases fm.json with e' | v
      · exact jsonExceptClauses_isTyped p e'
      · rfl
  · simp only [parse_json, hio]
    exact jsonExceptClauses_isTyped p e

theorem parse_xml_isTyped (fm : FileModel) (p : String) :
    (parse_xml fm p).1.isTyped = true := by
  rcases hio : fm.ioError with - | e
  · simp only [parse_xml, hio]
    rcases fm.xml with e' | root
    · exact xmlExceptClauses_isTyped p e'
    · rfl
  · simp only [parse_xml, hio]
    exact xmlExceptClauses_isTyped p e

theorem parse_pdf_isTyped (caps : Caps) (fm : FileModel) (p : String) :
    (parse_pdf caps fm p).1.isTyped = true := by
  by_cases hcap : caps.HAS_PYPDF2 = false
  · simp only [parse_pdf, if_pos hcap]
    rfl
  · simp only [parse_pdf, if_neg hcap]
    rcases hio : fm.ioError with - | e
    · rcases fm.pdfPages with e' | pages
      · exact pdfExceptClauses_isTyped p e'
      · rfl
    · exact pdfExceptClauses_isTyped p e

theorem parse_docx_isTyped (caps : Caps) (fm : FileModel) (p : String) :
    (parse_docx caps fm p).1.isTyped = true := by
  by_cases hcap : caps.HAS_DOCX = false
  · simp only [parse_docx, if_pos hcap]
    rfl
  · simp only [parse_docx, if_neg hcap]
    rcases hio : fm.ioError with - | e
    · rcases fm.docxParas with e' | paras
      · exact docxExceptClauses_isTyped p e'
      · rfl
    · exact docxExceptClauses_isTyped p e

theorem parse_excel_isTyped (caps : Caps) (fm : FileModel) (p : String) :
    (parse_excel caps fm p).1.isTyped = true := by
  by_cases hcap : caps.HAS_PANDAS = false
  · simp only [parse_excel, if_pos hcap]
    rfl
  · simp only [parse_excel, if_neg hcap]
    rcases hio : fm.ioError with - | e
    · rcases fm.excelSheets with e' | sheets
      · exact excelExceptClauses_isTyped p e'
      · rfl
    · exact excelExceptClauses_isTyped p e

theorem parse_html_isTyped (caps : Caps) (fm : FileModel) (p : String) :
    (parse_html caps fm p).1.isTyped = true := by
  by_cases hcap : caps.HAS_BS4 = false
  · simp only [parse_html, if_pos hcap]
    rfl
  · simp only [parse_html, if_neg hcap]
    rcases hio : fm.ioError with - | e
    · cases pyDecodeStrict fm.bytes
      · exact htmlExceptClauses_isTyped p .unicodeDecodeError
      · rcases fm.soupText with e' | t
        · exact htmlExceptClauses_isTyped p e'
        · rfl
    · exact htmlExceptClauses_isTyped p e

theorem dispatchByExt_isTyped (caps : Caps) (fm : FileModel) (p ext : String) :
    (dispatchByExt caps fm p ext).1.isTyped = true := by
  rw [dispatchByExt]
  split_ifs
  · exact parse_txt_isTyped fm p
  · exact parse_csv_isTyped fm p
  · exact parse_json_isTyped fm p
  · exact parse_xml_isTyped fm p
  · exact parse_pdf_isTyped caps fm p
  · exact parse_docx_isTyped caps fm p
  · exact parse_excel_isTyped caps fm p
  · exact parse_html_isTyped caps fm p
  · rfl

/-! ## Success-shape lemmas (which variant each strategy can produce) -/

theorem txtExceptClauses_not_ok (p : String) (e : PyExc) (c : Content) :
    (txtExceptClauses p e).1 ≠ .ok c := by
  cases e <;> exact fun h => nomatch h

theorem csvExceptClauses_not_ok (p : String) (e : PyExc) (c : Content) :
    (csvExceptClauses p e).1 ≠ .ok c := by
  cases e <;> exact fun h => nomatch h

theorem jsonExceptClauses_not_ok (p : String) (e : PyExc) (c : Content) :
    (jsonExceptClauses p e).1 ≠ .ok c := by
  cases e <;> exact fun h => nomatch h

theorem xmlExceptClauses_not_ok (p : String) (e : PyExc) (c : Content) :
    (xmlExceptClauses p e).1 ≠ .ok c := by
  cases e <;> exact fun h => nomatch h

theorem pdfExceptClauses_not_ok (p : String) (e : PyExc) (c : Content) :
    (pdfExceptClauses p e).1 ≠ .ok c := by
  cases e <;> exact fun h => nomatch h

theorem docxExceptClauses_not_ok (p : String) (e : PyExc) (c : Content) :
    (docxExceptClauses p e).1 ≠ .ok c := by
  cases e <;> exact fun h => nomatch h

theorem excelExceptClauses_not_ok (p : String) (e : PyExc) (c : Content) :
    (excelExceptClauses p e).1 ≠ .ok c := by
  cases e <;> exact fun h => nomatch h

theorem htmlExceptClauses_not_ok (p : String) (e : PyExc) (c : Content) :
    (htmlExceptClauses p e).1 ≠ .ok c := by
  cases e <;> exact fun h => nomatch h

theorem parse_txt_ok_shape (fm : FileModel) (p : String) (c : Content)
    (h : (parse_txt fm p).1 = .ok c) : ∃ s, c = .text s := by
  rcases hio : fm.ioError with - | e
  · simp only [parse_txt, hio] at h
    rcases hd : pyDecodeStrict fm.bytes with - | s
    · rw [hd] at h
      exact ⟨_, (POutcome.ok.injEq .. ▸ h).symm⟩
    · rw [hd] at h
      exact ⟨_, (POutcome.ok.injEq .. ▸ h).symm⟩
  · simp only [parse_txt, hio] at h
    exact absurd h (txtExceptClauses_not_ok p e c)

theorem parse_csv_ok_shape (fm : FileModel) (p : String) (c : Content)
    (h : (parse_csv fm p).1 = .ok c) : ∃ rows, c = .table rows := by
  rcases hio : fm.ioError with - | e
  · simp only [parse_csv, hio] at h
    rcases hd : pyDecodeStrict fm.bytes with - | s
    · rw [hd] at h
      exact absurd h (csvExceptClauses_not_ok p .unicodeDecodeError c)
    · rw [hd] at h
      exact ⟨_, (POutcome.ok.injEq .. ▸ h).symm⟩
  · simp only [parse_csv, hio] at h
    exact absurd h (csvExceptClauses_not_ok p e c)

theorem parse_json_ok_shape (fm : FileModel) (p : String) (c : Content)
    (h : (parse_json fm p).1 = .ok c) : ∃ v, c = .structured v := by
  rcases hio : fm.ioError with - | e
  · simp only [parse_json, hio] at h
    rcases hd : pyDecodeStrict fm.bytes with - | s
    · rw [hd] at h
      exact absurd h (jsonExceptClauses_not_ok p .unicodeDecodeError c)
    · rw [hd] at h
      rcases hj : fm.json with e' | v
      · rw [hj] at h
        exact absurd h (jsonExceptClauses_not_ok p e' c)
      · rw [hj] at h
        exact ⟨_, (POutcome.ok.injEq .. ▸ h).symm⟩
  · simp only [parse_json, hio] at h
    exact absurd h (jsonExceptClauses_not_ok p e c)

theorem parse_xml_ok_shape (fm : FileModel) (p : String) (c : Content)
    (h : (parse_xml fm p).1 = .ok c) : ∃ s, c = .text s := by
  rcases hio : fm.ioError with - | e
  · simp only [parse_xml, hio] at h
    rcases hx : fm.xml with e' | root
    · rw [hx] at h
      exact absurd h (xmlExceptClauses_not_ok p e' c)
    · rw [hx] at h
      exact ⟨_, (POutcome.ok.injEq .. ▸ h).symm⟩
  · simp only [parse_xml, hio] at h
    exact absurd h (xmlExceptClauses_not_ok p e c)

theorem parse_pdf_ok_shape (caps : Caps) (fm : FileModel) (p : String) (c : Content)
    (h : (parse_pdf caps fm p).1 = .ok c) : ∃ s, c = .text s := by
  by_cases hcap : caps.HAS_PYPDF2 = false
  · rw [parse_pdf, if_pos hcap] at h
    exact nomatch h
  · rw [parse_pdf, if_neg hcap] at h
    rcases hio : fm.ioError with - | e
    · rw [hio] at h
      rcases hp : fm.pdfPages with e' | pages
      · rw [hp] at h
        exact absurd h (pdfExceptClauses_not_ok p e' c)
      · rw [hp] at h
        exact ⟨_, (POutcome.ok.injEq .. ▸ h).symm⟩
    · rw [hio] at h
      exact absurd h (pdfExceptClauses_not_ok p e c)

theorem parse_docx_ok_shape (caps : Caps) (fm : FileModel) (p : String) (c : Content)
    (h : (parse_docx caps fm p).1 = .ok c) : ∃ s, c = .text s := by
  by_cases hcap : caps.HAS_DOCX = false
  · rw [parse_docx, if_pos hcap] at h
    exact nomatch h
  · rw [parse_docx, if_neg hcap] at h
    rcases hio : fm.ioError with - | e
    · rw [hio] at h
      rcases hp : fm.docxParas with e' | paras
      · rw [hp] at h
        exact absurd h (docxExceptClauses_not_ok p e' c)
      · rw [hp] at h
        exact ⟨_, (POutcome.ok.injEq .. ▸ h).symm⟩
    · rw [hio] at h
      exact absurd h (docxExceptClauses_not_ok p e c)

theorem parse_excel_ok_shape (caps : Caps) (fm : FileModel) (p : String) (c : Content)
    (h : (parse_excel caps fm p).1 = .ok c) : ∃ m, c = .sheets m := by
  by_cases hcap : caps.HAS_PANDAS = false
  · rw [parse_excel, if_pos hcap] at h
    exact nomatch h
  · rw [parse_excel, if_neg hcap] at h
    rcases hio : fm.ioError with - | e
    · rw [hio] at h
      rcases hp : fm.excelSheets with e' | sheets
      · rw [hp] at h
        exact absurd h (excelExceptClauses_not_ok p e' c)
      · rw [hp] at h
        exact ⟨_, (POutcome.ok.injEq .. ▸ h).symm⟩
    · rw [hio] at h
      exact absurd h (excelExceptClauses_not_ok p e c)

theorem parse_html_ok_shape (caps : Caps) (fm : FileModel) (p : String) (c : Content)
    (h : (parse_html caps fm p).1 = .ok c) : ∃ s, c = .text s := by
  by_cases hcap : caps.HAS_BS4 = false
  · rw [parse_html, if_pos hcap] at h
    exact nomatch h
  · rw [parse_html, if_neg hcap] at h
    rcases hio : fm.ioError with - | e
    · rw [hio] at h
      rcases hd : pyDecodeStrict fm.bytes with - | s
      · rw [hd] at h
        exact absurd h (htmlExceptClauses_not_ok p .unicodeDecodeError c)
      · rw [hd] at h
        rcases hs : fm.soupText with e' | t
        · rw [hs] at h
          exact absurd h (htmlExceptClauses_not_ok p e' c)
        · rw [hs] at h
          exact ⟨_, (POutcome.ok.injEq .. ▸ h).symm⟩
    · rw [hio] at h
      exact absurd h (htmlExceptClauses_not_ok p e c)

/-! ## Claim theorems -/

/-- Claim C10: `parse_document` is total at its public boundary — for every
argument that is not a non-empty string (None, a number, the empty string),
it returns the invalid-path failure with a single error diagnostic, without
raising; the result is a constant independent of the filesystem, so the
filesystem is never touched. -/
theorem invalid_argument_guard (caps : Caps) (fs : FileSystem) (v : PyValue)
    (h : v.isNonEmptyStr = false) :
    parse_document caps fs v
      = (.fail .invalidPath, [.error "Invalid filepath provided."]) := by
  cases v with
  | str p =>
    have hp : p = "" := by
      by_cases hp' : p = ""
      · exact hp'
      · exact absurd h (by simp [PyValue.isNonEmptyStr, hp'])
    simp only [parse_document, if_pos hp]
  | pyNone => rfl
  | int n => rfl
  | other d => rfl

/-- Witness for C10 at the concrete argument `None`. -/
theorem invalid_argument_guard_witness :
    PyValue.pyNone.isNonEmptyStr = false ∧
      parse_document capsAll fsFixture .pyNone
        = (.fail .invalidPath, [.error "Invalid filepath provided."]) :=
  ⟨rfl, invalid_argument_guard capsAll fsFixture .pyNone rfl⟩

/-- Claim C1: for every capability state, filesystem and argument — missing
path, directory, unsupported extension, malformed content of any modelled
kind — `parse_document` produces a typed result (a populated content value
or a failure), never an escaped exception. -/
theorem parse_document_total_typed (caps : Caps) (fs : FileSystem) (v : PyValue) :
    (parse_document caps fs v).1.isTyped = true := by
  cases v with
  | str p =>
    by_cases hp : p = ""
    · simp only [parse_document, if_pos hp]
      rfl
    · by_cases hex : fs.pathExists p = false
      · simp only [parse_document, if_neg hp, if_pos hex]
        rfl
      · by_cases hfile : fs.pathIsFile p = false
        · simp only [parse_document, if_neg hp, if_neg hex, if_pos hfile]
          rfl
        · simp only [parse_document, if_neg hp, if_neg hex, if_neg hfile]
          exact dispatchByExt_isTyped caps (fs.file p) p (extLower p)
  | pyNone => rfl
  | int n => rfl
  | other d => rfl

/-- Claim C2: for every existing regular file whose (lower-cased) extension
requires an optional backend that the capability state reports unavailable,
`parse_document` returns exactly the `backendUnavailable` failure for that
backend — never a crash and never a different failure kind — regardless of
the file's content. -/
theorem backend_unavailable_failure (caps : Caps) (fs : FileSystem) (p : String)
    (b : Backend) (hp : p ≠ "") (hex : fs.pathExists p = true)
    (hfile : fs.pathIsFile p = true)
    (hreq : requiresBackend (extLower p) = some b)
    (hunavail : isAvailable caps b = false) :
    (parse_document caps fs (.str p)).1 = .fail (.backendUnavailable b) := by
  rw [parse_document_valid caps fs p hp hex hfile]
  show (dispatchByExt caps (fs.file p) p (extLower p)).1 = _
  rw [requiresBackend] at hreq
  split_ifs at hreq with h1 h2 h3 h4
  · cases hreq
    rw [h1, dispatch_pdf, parse_pdf,
      if_pos (show caps.HAS_PYPDF2 = false from hunavail)]
  · cases hreq
    rw [h2, dispatch_docx, parse_docx,
      if_pos (show caps.HAS_DOCX = false from hunavail)]
  · cases hreq
    rcases h3 with h3 | h3
    · rw [h3, dispatch_xlsx, parse_excel,
        if_pos (show caps.HAS_PANDAS = false from hunavail)]
    · rw [h3, dispatch_xls, parse_excel,
        if_pos (show caps.HAS_PANDAS = false from hunavail)]
  · cases hreq
    rcases h4 with h4 | h4
    · rw [h4, dispatch_html, parse_html,
        if_pos (show caps.HAS_BS4 = false from hunavail)]
    · rw [h4, dispatch_htm, parse_html,
        if_pos (show caps.HAS_BS4 = false from hunavail)]

/-- Witness for C2: `doc.pdf` exists but PyPDF2 is unavailable. -/
theorem backend_unavailable_failure_witness :
    requiresBackend (extLower "doc.pdf") = some .pypdf2 ∧
      isAvailable capsNoBackends .pypdf2 = false ∧
      (parse_document capsNoBackends fsFixture (.str "doc.pdf")).1
        = .fail (.backendUnavailable .pypdf2) :=
  ⟨rfl, rfl,
    backend_unavailable_failure capsNoBackends fsFixture "doc.pdf" .pypdf2
      (by decide) rfl rfl rfl rfl⟩

/-- Claim C6, counterexample to "logged as a warning, not an error": for the
existing regular file `file.xyz` with unsupported extension `.xyz`, the call
does return the UnsupportedFormat failure and does emit the warning, but the
dispatcher also emits an error-level event (`Failed to parse: ...`) for this
same outcome, so the outcome is not logged *only* as a warning. -/
theorem unsupported_warning_only_cex :
    fsFixture.pathExists "file.xyz" = true ∧
      fsFixture.pathIsFile "file.xyz" = true ∧
      extLower "file.xyz" ∉ supportedExts ∧
      (parse_document capsAll fsFixture (.str "file.xyz")).1
        = .fail (.unsupportedFormat ".xyz") ∧
      (parse_document capsAll fsFixture (.str "file.xyz")).2.countP Diag.isError = 1 := by
  refine ⟨rfl, rfl, by decide, rfl, rfl⟩

/-- Claim C6 (amended): for every existing regular file whose lower-cased
extension is not in the supported table, `parse_document` returns the
UnsupportedFormat failure regardless of the file's content; the
unsupported-format diagnostic itself is emitted at warning level (exactly
one warning), while the dispatcher's generic failure summary is additionally
logged at error level (exactly one error). -/
theorem unsupported_format_failure (caps : Caps) (fs : FileSystem) (p : String)
    (hp : p ≠ "") (hex : fs.pathExists p = true) (hfile : fs.pathIsFile p = true)
    (hunsup : extLower p ∉ supportedExts) :
    (parse_document caps fs (.str p)).1 = .fail (.unsupportedFormat (extLower p)) ∧
      (parse_document caps fs (.str p)).2.countP Diag.isWarning = 1 ∧
      (parse_document caps fs (.str p)).2.countP Diag.isError = 1 := by
  simp only [supportedExts, List.mem_cons, List.not_mem_nil, or_false, not_or] at hunsup
  obtain ⟨h1, h2, h3, h4, h5, h6, h7, h8, h9, h10⟩ := hunsup
  rw [parse_document_valid caps fs p hp hex hfile]
  rw [dispatchByExt, if_neg h1, if_neg h2, if_neg h3, if_neg h4, if_neg h5, if_neg h6,
    if_neg (by exact fun hor => hor.elim h7 h8), if_neg (by exact fun hor => hor.elim h9 h10)]
  refine ⟨rfl, ?_, ?_⟩ <;>
    simp [List.countP_cons, Diag.isWarning, Diag.isError]

/-- Witness for the amended C6 at the concrete file `file.xyz`. -/
theorem unsupported_format_failure_witness :
    (parse_document capsAll fsFixture (.str "file.xyz")).1
        = .fail (.unsupportedFormat ".xyz") ∧
      (parse_document capsAll fsFixture (.str "file.xyz")).2.countP Diag.isWarning = 1 :=
  ⟨(unsupported_format_failure capsAll fsFixture "file.xyz" (by decide) rfl rfl
      (by decide)).1,
   (unsupported_format_failure capsAll fsFixture "file.xyz" (by decide) rfl rfl
      (by decide)).2.1⟩

/-- Claim C4, counterexample to "that variant is non-empty": the existing
empty regular file `empty.txt` parses successfully, but the populated
variant is `Text ""` — an empty variant. -/
theorem success_variant_nonempty_cex :
    fsFixture.pathExists "empty.txt" = true ∧
      fsFixture.pathIsFile "empty.txt" = true ∧
      (parse_document capsAll fsFixture (.str "empty.txt")).1 = .ok (.text "") ∧
      contentNonempty (.text "") = false := by
  refine ⟨rfl, rfl, rfl, rfl⟩

/-- Claim C4 (amended): a successful parse yields exactly one populated
variant — the variant determined by the detected format (Text for
`.txt`/`.xml`/`.pdf`/`.docx`/`.html`/`.htm`, Table for `.csv`,
StructuredValue for `.json`, SheetSet for `.xlsx`/`.xls`; an unsupported
format never succeeds) — though that variant's payload may be empty (an
empty text file yields `Text ""`).  A failed call yields no variant, only a
failure (by the shape of `POutcome`, `fail` carries a `FailureKind` and no
content). -/
theorem success_variant_matches_format (caps : Caps) (fs : FileSystem)
    (p : String) (c : Content)
    (h : (parse_document caps fs (.str p)).1 = .ok c) :
    formatVariantOk (extLower p) c = true := by
  by_cases hp : p = ""
  · simp only [parse_document, if_pos hp] at h
    exact nomatch h
  by_cases hex : fs.pathExists p = false
  · simp only [parse_document, if_neg hp, if_pos hex] at h
    exact nomatch h
  by_cases hfile : fs.pathIsFile p = false
  · simp only [parse_document, if_neg hp, if_neg hex, if_pos hfile] at h
    exact nomatch h
  simp only [parse_document, if_neg hp, if_neg hex, if_neg hfile] at h
  rw [dispatchByExt] at h
  split_ifs at h with h1 h2 h3 h4 h5 h6 h7 h8
  · obtain ⟨s, rfl⟩ := parse_txt_ok_shape _ _ _ h
    rw [h1]
    rfl
  · obtain ⟨rows, rfl⟩ := parse_csv_ok_shape _ _ _ h
    rw [h2]
    rfl
  · obtain ⟨v, rfl⟩ := parse_json_ok_shape _ _ _ h
    rw [h3]
    rfl
  · obtain ⟨s, rfl⟩ := parse_xml_ok_shape _ _ _ h
    rw [h4]
    rfl
  · obtain ⟨s, rfl⟩ := parse_pdf_ok_shape _ _ _ _ h
    rw [h5]
    rfl
  · obtain ⟨s, rfl⟩ := parse_docx_ok_shape _ _ _ _ h
    rw [h6]
    rfl
  · obtain ⟨m, rfl⟩ := parse_excel_ok_shape _ _ _ _ h
    rcases h7 with h7 | h7 <;> rw [h7] <;> rfl
  · obtain ⟨s, rfl⟩ := parse_html_ok_shape _ _ _ _ h
    rcases h8 with h8 | h8 <;> rw [h8] <;> rfl

/-- Witness for the amended C4 at the concrete file `sample.csv`. -/
theorem success_variant_matches_format_witness :
    (parse_document capsAll fsFixture (.str "sample.csv")).1
        = .ok (.table sampleCsvRows) ∧
      formatVariantOk (extLower "sample.csv") (.table sampleCsvRows) = true :=
  ⟨rfl, success_variant_matches_format capsAll fsFixture "sample.csv"
      (.table sampleCsvRows) rfl⟩

/-- Claim C5, counterexample to "invalid bytes are replaced": for the
regular file `bad.txt` with bytes `61 FF 62` (not valid UTF-8), the parse
does fall back and succeed, but it returns `"ab"` — the invalid byte is
*dropped* (`errors='ignore'`), not replaced with U+FFFD as the claim states
(replacement would give `"a�b"`). -/
theorem txt_fallback_replace_cex :
    pyDecodeStrict [97, 255, 98] = none ∧
      (parse_document capsAll fsFixture (.str "bad.txt")).1 = .ok (.text "ab") ∧
      (parse_document capsAll fsFixture (.str "bad.txt")).1
        ≠ .ok (.text (pyDecodeReplace [97, 255, 98])) := by
  refine ⟨rfl, rfl, ?_⟩
  intro hcontra
  have : ("ab" : String) = pyDecodeReplace [97, 255, 98] := by
    have h1 : (parse_document capsAll fsFixture (.str "bad.txt")).1
        = .ok (.text "ab") := rfl
    have h2 := h1.symm.trans hcontra
    injection h2 with h3
    injection h3
  exact absurd this (by decide)

/-- Claim C5 (amended): for every existing regular `.txt` file whose bytes
fail the strict UTF-8 decode, `parse_txt` retries exactly once (one warning
diagnostic) with `sys.getdefaultencoding()` and `errors='ignore'`, so
invalid bytes are dropped rather than raising, and the call still returns a
Text result containing the ignore-decoded content. -/
theorem txt_fallback_ignore_decode (caps : Caps) (fs : FileSystem) (p : String)
    (hp : p ≠ "") (hex : fs.pathExists p = true) (hfile : fs.pathIsFile p = true)
    (hext : extLower p = ".txt") (hio : (fs.file p).ioError = none)
    (hdec : pyDecodeStrict (fs.file p).bytes = none) :
    (parse_document caps fs (.str p)).1
        = .ok (.text (pyDecodeIgnore (fs.file p).bytes)) ∧
      (parse_document caps fs (.str p)).2.countP Diag.isWarning = 1 := by
  have hval := parse_document_valid caps fs p hp hex hfile
  constructor
  · rw [hval, hext, dispatch_txt]
    show (parse_txt (fs.file p) p).1 = _
    simp only [parse_txt, hio, hdec]
  · rw [hval, hext, dispatch_txt]
    simp only [parse_txt, hio, hdec]
    simp [List.countP_cons, Diag.isWarning]

/-- Witness for the amended C5 at the concrete file `bad.txt`. -/
theorem txt_fallback_ignore_decode_witness :
    (parse_document capsAll fsFixture (.str "bad.txt")).1 = .ok (.text "ab") ∧
      (parse_document capsAll fsFixture (.str "bad.txt")).2.countP Diag.isWarning = 1 :=
  ⟨((txt_fallback_ignore_decode capsAll fsFixture "bad.txt" (by decide) rfl rfl rfl
      rfl rfl).1).trans rfl,
   (txt_fallback_ignore_decode capsAll fsFixture "bad.txt" (by decide) rfl rfl rfl
      rfl rfl).2⟩

/-- Claim C7: for every existing regular `.csv` file whose decoded content
is the serialization of `rows` — a list of well-formed records (at least one
field each, fields free of delimiter/quote/record-separator characters) —
`parse_document` returns a Table equal to `rows`: exactly one table row per
record (so `N` records give `N` rows, the header being row 0), with every
field the original string, no type inference; in particular when the source
is rectangular every returned row keeps the header's field count. -/
theorem csv_row_fidelity (caps : Caps) (fs : FileSystem) (p : String)
    (rows : List (List String))
    (hp : p ≠ "") (hex : fs.pathExists p = true) (hfile : fs.pathIsFile p = true)
    (hext : extLower p = ".csv") (hio : (fs.file p).ioError = none)
    (hdec : pyDecodeStrict (fs.file p).bytes = some (csvSerialize rows))
    (hwf : ∀ r ∈ rows, csvWellFormedRow r) :
    (parse_document caps fs (.str p)).1 = .ok (.table rows) := by
  rw [parse_document_valid caps fs p hp hex hfile, hext, dispatch_csv]
  show (parse_csv (fs.file p) p).1 = _
  simp only [parse_csv, hio, hdec]
  rw [csvParse_csvSerialize rows hwf]

/-- Witness for C7: the demonstration file `sample.csv` (header plus two
data records) parses to exactly its three records. -/
theorem csv_row_fidelity_witness :
    pyDecodeStrict (fsFixture.file "sample.csv").bytes
        = some (csvSerialize sampleCsvRows) ∧
      (parse_document capsAll fsFixture (.str "sample.csv")).1
        = .ok (.table sampleCsvRows) :=
  ⟨rfl,
    csv_row_fidelity capsAll fsFixture "sample.csv" sampleCsvRows
      (by decide) rfl rfl rfl rfl rfl (by decide)⟩

/-- Claim C9: `DelimitedStrategy` has no encoding fallback — for every
existing regular `.csv` file whose bytes are not valid UTF-8,
`parse_document` returns a failure (the `UnicodeDecodeError` lands in the
catch-all `except Exception` clause, aborting the whole parse), whereas
`parse_txt` on the very same file model succeeds by retrying with the
ignore-errors decode. -/
theorem csv_no_encoding_fallback (caps : Caps) (fs : FileSystem) (p : String)
    (hp : p ≠ "") (hex : fs.pathExists p = true) (hfile : fs.pathIsFile p = true)
    (hext : extLower p = ".csv") (hio : (fs.file p).ioError = none)
    (hdec : pyDecodeStrict (fs.file p).bytes = none) :
    (parse_document caps fs (.str p)).1 = .fail (.unexpected "CSV") ∧
      (parse_txt (fs.file p) p).1
        = .ok (.text (pyDecodeIgnore (fs.file p).bytes)) := by
  constructor
  · rw [parse_document_valid caps fs p hp hex hfile, hext, dispatch_csv]
    show (parse_csv (fs.file p) p).1 = _
    simp only [parse_csv, hio, hdec]
    rfl
  · simp only [parse_txt, hio, hdec]

/-- Witness for C9 at the concrete file `bad.csv` (bytes `61 FF 62`). -/
theorem csv_no_encoding_fallback_witness :
    pyDecodeStrict (fsFixture.file "bad.csv").bytes = none ∧
      (parse_document capsAll fsFixture (.str "bad.csv")).1
        = .fail (.unexpected "CSV") :=
  ⟨rfl,
    (csv_no_encoding_fallback capsAll fsFixture "bad.csv"
      (by decide) rfl rfl rfl rfl rfl).1⟩

/-- Claim C8: for every existing regular `.xml` file that parses to a tree,
`parse_document` succeeds with a Text equal to the spec's formula — the text
content of every node in document order, each fragment trimmed, empty
fragments discarded, and the rest joined by a single space. -/
theorem markup_text_extraction (caps : Caps) (fs : FileSystem) (p : String)
    (root : XmlNode)
    (hp : p ≠ "") (hex : fs.pathExists p = true) (hfile : fs.pathIsFile p = true)
    (hext : extLower p = ".xml") (hio : (fs.file p).ioError = none)
    (hxml : (fs.file p).xml = .ok root) :
    (parse_document caps fs (.str p)).1 = .ok (.text (specMarkupText root)) := by
  rw [parse_document_valid caps fs p hp hex hfile, hext, dispatch_xml]
  show (parse_xml (fs.file p) p).1 = _
  rw [parse_xml_text (fs.file p) p root hio hxml]

/-- Witness for C8: the tree of
`<data><item name="A">1</item><item name="B">2</item></data>` yields
`Text "1 2"`. -/
theorem markup_text_extraction_witness :
    (fsFixture.file "sample.xml").xml = .ok sampleXmlTree ∧
      specMarkupText sampleXmlTree = "1 2" ∧
      (parse_document capsAll fsFixture (.str "sample.xml")).1
        = .ok (.text "1 2") :=
  ⟨rfl, rfl,
    markup_text_extraction capsAll fsFixture "sample.xml" sampleXmlTree
      (by decide) rfl rfl rfl rfl rfl⟩

/-- Claim C3, counterexample to the newline-joined formula over "all other
pages succeed": in `blank.pdf` exactly one page raises and the other three
succeed — with texts "a", "" and "b" in page order.  The source's
`if page_text:` makes the blank page contribute neither text nor separator,
so the call returns `Text "a\nb"`, while the claim's formula — the other
pages' texts newline-joined in original order, trimmed — evaluates to
`"a\n\nb"`. -/
theorem pdf_per_page_recovery_blank_cex :
    fsFixture.pathExists "blank.pdf" = true ∧
      fsFixture.pathIsFile "blank.pdf" = true ∧
      (fsFixture.file "blank.pdf").pdfPages
        = .ok [.ok "a", .error "boom", .ok "", .ok "b"] ∧
      (parse_document capsAll fsFixture (.str "blank.pdf")).1 = .ok (.text "a\nb") ∧
      okTexts [Except.ok "a", Except.ok "", Except.ok "b"] = ["a", "", "b"] ∧
      pyStrip (joinSep "\n" ["a", "", "b"]) = "a\n\nb" ∧
      ("a\nb" : String) ≠ "a\n\nb" := by
  refine ⟨rfl, rfl, rfl, rfl, rfl, rfl, by decide⟩

/-- Claim C3 (amended): for a portable document whose page list is
`l1 ++ [failing page] ++ l2` — exactly one page raises an internal
extraction error and every other page succeeds (with possibly blank text) —
the call succeeds with Text equal to the newline-joined concatenation of the
other pages' *non-blank* texts in original page order, trimmed of
leading/trailing whitespace (a page extracted as blank contributes neither
text nor separator); exactly one warning diagnostic is emitted for the whole
call, and the per-page failure never surfaces as a failed call. -/
theorem pdf_per_page_failure_recovery (caps : Caps) (fs : FileSystem) (p : String)
    (l1 l2 : List (Except String String)) (m : String)
    (hcap : caps.HAS_PYPDF2 = true)
    (hp : p ≠ "") (hex : fs.pathExists p = true) (hfile : fs.pathIsFile p = true)
    (hext : extLower p = ".pdf") (hio : (fs.file p).ioError = none)
    (hpages : (fs.file p).pdfPages = .ok (l1 ++ .error m :: l2))
    (hok : ∀ pg ∈ l1 ++ l2, ∃ t, pg = .ok t) :
    (parse_document caps fs (.str p)).1
        = .ok (.text (pyStrip (joinSep "\n"
            ((okTexts (l1 ++ l2)).filter (fun t => t ≠ ""))))) ∧
      (parse_document caps fs (.str p)).2.countP Diag.isWarning = 1 := by
  have hl1 : ∀ pg ∈ l1, ∃ t, pg = .ok t :=
    fun pg hpg => hok pg (List.mem_append_left _ hpg)
  have hl2 : ∀ pg ∈ l2, ∃ t, pg = .ok t :=
    fun pg hpg => hok pg (List.mem_append_right _ hpg)
  have hcap' : ¬caps.HAS_PYPDF2 = false := by
    rw [hcap]
    exact fun h => nomatch h
  have htext : pyStrip (pdfPageLoop p (l1 ++ .error m :: l2) 0 "").1
      = pyStrip (joinSep "\n" ((okTexts (l1 ++ l2)).filter (fun t => t ≠ ""))) := by
    rw [pdfPageLoop_text, String.empty_append, pdfCat_append,
      show pdfCat (Except.error m :: l2) = pdfCat l2 from rfl,
      pdfCat_of_ok l1 hl1, pdfCat_of_ok l2 hl2,
      ← nlTerm_append, ← List.filter_append, ← okTexts_append, pyStrip_nlTerm]
  have hwarn : ((pdfPageLoop p (l1 ++ .error m :: l2) 0 "").2).countP Diag.isWarning = 1 := by
    rw [pdfPageLoop_warnings, List.countP_append]
    rw [countP_pageFailed_of_ok l1 hl1]
    simp [List.countP_cons, pageFailed, countP_pageFailed_of_ok l2 hl2]
  have hval := parse_document_valid caps fs p hp hex hfile
  constructor
  · rw [hval, hext, dispatch_pdf]
    show (parse_pdf caps (fs.file p) p).1 = _
    simp only [parse_pdf, if_neg hcap', hio, hpages]
    rw [htext]
  · rw [hval, hext, dispatch_pdf]
    simp only [parse_pdf, if_neg hcap', hio, hpages]
    simp [List.countP_cons, List.countP_append, Diag.isWarning, hwarn]

/-- Witness for the amended C3: `blank.pdf` has four pages — the second
raising, the third extracting blank text — and the result is `Text "a\nb"`
with a single warning. -/
theorem pdf_per_page_failure_recovery_witness :
    (parse_document capsAll fsFixture (.str "blank.pdf")).1 = .ok (.text "a\nb") ∧
      (parse_document capsAll fsFixture (.str "blank.pdf")).2.countP Diag.isWarning = 1 := by
  have h := pdf_per_page_failure_recovery capsAll fsFixture "blank.pdf"
    [.ok "a"] [.ok "", .ok "b"] "boom" rfl (by decide) rfl rfl rfl rfl rfl
    (by
      intro pg hpg
      simp only [List.singleton_append, List.mem_cons, List.not_mem_nil, or_false] at hpg
      rcases hpg with rfl | rfl | rfl
      · exact ⟨"a", rfl⟩
      · exact ⟨"", rfl⟩
      · exact ⟨"b", rfl⟩)
  exact ⟨h.1, h.2⟩
